import Mathlib

/-!
Shallow embedding of the DeStorage NEAR contract (src/DeStorage/contract/src/lib.rs).

The contract state is five keyed tables (UnorderedMap / UnorderedSet), modelled
here as functions from keys to optional values (sets as duplicate-free lists).
Rust `assert!`/`assert_eq!` panics abort the call; each mutating entry point is
modelled as a function returning `Option (Contract × Option Err)`:
`some (s, some e)` means the call halted with error `e` while the store was `s`,
`some (s, none)` means the call completed with final store `s`, and `none` means
the call diverged (the unbounded `while` loop in `get_root` never exited; the
loop is given explicit fuel).  `env::signer_account_id()` is passed explicitly
as a `caller` argument; `env::log` calls are ignored (no observable effect on
state or result).
-/

/-- File record (struct `File` in lib.rs). -/
structure File where
  cid : String
  name : String
  encrypted_password : Option String
  file_type : String
  last_update : Nat
  update_by : String
  created_at : Nat
  created_by : String
deriving DecidableEq

/-- Folder node (struct `FolderV2` in lib.rs). `folder_type`: 1 is a common
folder, 2 is a shared folder. -/
structure FolderV2 where
  name : String
  files : List String
  parent : String
  children : List String
  folder_type : Option Nat
  folder_password : Option String
  created_by : String
  created_at : Nat
deriving DecidableEq

/-- User record (struct `User` in lib.rs). -/
structure User where
  public_key : String
  encrypted_token : String
deriving DecidableEq

/-- Capability grant (struct `ShareDoc` in lib.rs). `permission`: 1 Read,
2 Write. `doc_type`: 1 file, 2 folder. -/
structure ShareDoc where
  doc_id : String
  share_password : String
  permission : Nat
  created_at : Nat
  doc_type : Nat
deriving DecidableEq

/-- The five persistent tables of the contract (struct `Contract` in lib.rs).
`shared_doc_of_user` maps a grantee to the set of ShareDoc keys shared with
them; the UnorderedSet is modelled as a duplicate-free list. -/
structure Contract where
  folders_v2 : String → Option FolderV2
  users : String → Option User
  files : String → Option File
  shared_docs : String → Option ShareDoc
  shared_doc_of_user : String → Option (List String)

/-- Panic messages of the contract, one constructor per distinct
`assert!`/`assert_eq!`/`unwrap` failure site. -/
inductive Err where
  | folderIdIsUser
  | folderExists
  | fileExists
  | notOwner
  | noRootPermission
  | notShared
  | insufficientPermission
  | rootFolderNotFound
  | wrongFolderType
  | selfShare
  | notRootFolder
  | fileNotInFolder
  | unwrapPanic
deriving DecidableEq

/-- UnorderedMap.insert: point update of a keyed table. -/
def mapInsert {α : Type} (m : String → Option α) (k : String) (v : α) :
    String → Option α :=
  fun x => if x = k then some v else m x

/-- UnorderedMap.remove: point deletion from a keyed table. -/
def mapRemove {α : Type} (m : String → Option α) (k : String) :
    String → Option α :=
  fun x => if x = k then none else m x

/-- The composite ShareDoc key `format!("{}_{}_{}", owner, grantee, resource)`. -/
def shareKey (owner grantee resource : String) : String :=
  owner ++ "_" ++ grantee ++ "_" ++ resource

/-- `validate_folder` (lib.rs:137): a new folder id must not be an existing
account id, nor an existing folder id. Returns the panic, if any. -/
def validate_folder (s : Contract) (folder_id : String) : Option Err :=
  match s.users folder_id with
  | some _ => some Err.folderIdIsUser
  | none =>
    match s.folders_v2 folder_id with
    | some _ => some Err.folderExists
    | none => none

/-- `validate_user` (lib.rs:153): `assert_eq!(account_id, owner_id)`. -/
def validate_user (account_id owner_id : String) : Option Err :=
  if account_id = owner_id then none else some Err.notOwner

/-- `validate_file` (lib.rs:161): a new file id must not already exist. -/
def validate_file (s : Contract) (file_id : String) : Option Err :=
  match s.files file_id with
  | some _ => some Err.fileExists
  | none => none

/-- `validate_folder_type` (lib.rs:170): the root folder must exist and carry
exactly the expected `folder_type`. -/
def validate_folder_type (root_folder : Option FolderV2) (ftype : Nat) :
    Option Err :=
  match root_folder with
  | some folder =>
    match folder.folder_type with
    | some t => if t = ftype then none else some Err.wrongFolderType
    | none => some Err.rootFolderNotFound
  | none => some Err.rootFolderNotFound

/-- `verify_accessible` (lib.rs:105): the owner (the root folder's `parent`
field) always passes; otherwise a ShareDoc keyed
`"{owner}_{account_id}_{folder_id}"` must exist with permission 2 (Write). -/
def verify_accessible (s : Contract) (root_folder : Option FolderV2)
    (folder_id account_id : String) : Option Err :=
  match root_folder with
  | some folder =>
    if folder.parent = account_id then none
    else
      match s.shared_docs (shareKey folder.parent account_id folder_id) with
      | some share_doc =>
        if share_doc.permission = 2 then none
        else some Err.insufficientPermission
      | none => some Err.notShared
  | none => some Err.noRootPermission

/-- Body of the `while current_id != parent_id` loop of `get_root`
(lib.rs:500-512), with explicit fuel.  Each iteration looks up `parent_id`;
if found it shifts one step up and records the previous `current_id` into
`result` exactly when the new pair is a self-loop; if not found the loop state
is unchanged (the source then spins forever; here the fuel runs out and the
divergence is reported as `none`). -/
def getRootLoop (folders : String → Option FolderV2) :
    Nat → String → String → String → Option String
  | 0, _, _, _ => none
  | fuel + 1, current_id, parent_id, result =>
    if current_id = parent_id then some result
    else
      match folders parent_id with
      | some folder =>
        getRootLoop folders fuel parent_id folder.parent
          (if parent_id = folder.parent then current_id else result)
      | none => getRootLoop folders fuel current_id parent_id result

/-- `get_root` (lib.rs:494): walk the parent chain from `folder_id`; `result`
starts as `""` and is finally looked up in the folder table again.  Only the
`folders_v2` table is read, so the function takes that table directly. -/
def get_root (folders : String → Option FolderV2) (folder_id : String)
    (fuel : Nat) : Option (Option FolderV2 × String) :=
  match folders folder_id with
  | some folder_by_id =>
    match getRootLoop folders fuel folder_id folder_by_id.parent "" with
    | none => none
    | some result => some (folders result, result)
  | none => some (folders "", "")

/-- `sign_up` (lib.rs:77): unconditionally insert the user record and a fresh
self-loop root folder under the caller's account id. -/
def sign_up (s : Contract) (account_id public_key encrypted_token : String)
    (created_at : Nat) : Contract :=
  let s1 := { s with
              users :=
                mapInsert s.users account_id ⟨public_key, encrypted_token⟩ }
  { s1 with
    folders_v2 :=
      mapInsert s1.folders_v2 account_id
        ⟨"root", [], account_id, [], none, none, account_id, created_at⟩ }

/-- `create_folder_v2` (lib.rs:189). -/
def create_folder_v2 (fuel : Nat) (s : Contract) (caller id name parent : String)
    (password : Option String) (ftype : Option Nat) (created_at : Nat) :
    Option (Contract × Option Err) :=
  match validate_folder s id with
  | some e => some (s, some e)
  | none =>
    match (if parent = caller then some (none : Option Err)
           else
             match get_root s.folders_v2 parent fuel with
             | none => none
             | some (root_folder, folder_id) =>
               some (verify_accessible s root_folder folder_id caller)) with
    | none => none
    | some (some e) => some (s, some e)
    | some none =>
      let fp_ft : Option String × Option Nat :=
        if parent = caller then
          match ftype with
          | some t => (if t = 2 then password else none, some t)
          | none => (none, none)
        else (none, none)
      match s.folders_v2 parent with
      | some folder =>
        let s1 := { s with
                    folders_v2 :=
                      mapInsert s.folders_v2 parent
                        { folder with children := folder.children ++ [id] } }
        some ({ s1 with
                folders_v2 :=
                  mapInsert s1.folders_v2 id
                    ⟨name, [], parent, [], fp_ft.2, fp_ft.1, caller,
                     created_at⟩ }, none)
      | none => some (s, none)

/-- `create_file_v2` (lib.rs:239). -/
def create_file_v2 (fuel : Nat) (s : Contract)
    (caller folder file_id cid name : String)
    (encrypted_password : Option String) (file_type : String)
    (created_at : Nat) : Option (Contract × Option Err) :=
  match validate_file s file_id with
  | some e => some (s, some e)
  | none =>
    match get_root s.folders_v2 folder fuel with
    | none => none
    | some (root_folder, folder_id) =>
      match verify_accessible s root_folder folder_id caller with
      | some e => some (s, some e)
      | none =>
        match s.folders_v2 folder with
        | some fo =>
          let fo' := if fo.files.contains file_id then fo
                     else { fo with files := fo.files ++ [file_id] }
          some ({ s with
                  folders_v2 := mapInsert s.folders_v2 folder fo',
                  files :=
                    mapInsert s.files file_id
                      ⟨cid, name, encrypted_password, file_type, created_at,
                       caller, created_at, caller⟩ }, none)
        | none => some (s, none)

/-- Shared tail of `share_file_v2` and `share_folder_v2` (lib.rs:313-338 and
lib.rs:364-389, textually duplicated in the source): upsert the ShareDoc and
add its key to the grantee's index set (insert-if-absent). -/
def upsert_share (s : Contract) (caller share_with resource password : String)
    (permission created_at doc_type : Nat) : Contract :=
  let share_doc_id := shareKey caller share_with resource
  let s1 := { s with
              shared_docs :=
                mapInsert s.shared_docs share_doc_id
                  ⟨resource, password, permission, created_at, doc_type⟩ }
  match s1.shared_doc_of_user share_with with
  | some l =>
    { s1 with
      shared_doc_of_user :=
        mapInsert s1.shared_doc_of_user share_with
          (if l.contains share_doc_id then l else l ++ [share_doc_id]) }
  | none =>
    { s1 with
      shared_doc_of_user :=
        mapInsert s1.shared_doc_of_user share_with [share_doc_id] }

/-- `share_file_v2` (lib.rs:278). -/
def share_file_v2 (fuel : Nat) (s : Contract)
    (caller file_id share_with parent_folder password : String)
    (permission created_at : Nat) : Option (Contract × Option Err) :=
  if caller = share_with then some (s, some Err.selfShare)
  else
    match get_root s.folders_v2 parent_folder fuel with
    | none => none
    | some (root_folder, folder_id) =>
      match verify_accessible s root_folder folder_id caller with
      | some e => some (s, some e)
      | none =>
        match validate_folder_type root_folder 1 with
        | some e => some (s, some e)
        | none =>
          match (match s.folders_v2 parent_folder with
                 | some folder =>
                   if folder.files.contains file_id then none
                   else some Err.fileNotInFolder
                 | none => none) with
          | some e => some (s, some e)
          | none =>
            some (upsert_share s caller share_with file_id password permission
              created_at 1, none)

/-- `share_folder_v2` (lib.rs:341). -/
def share_folder_v2 (fuel : Nat) (s : Contract)
    (caller folder_id share_with password : String)
    (permission created_at : Nat) : Option (Contract × Option Err) :=
  if caller = share_with then some (s, some Err.selfShare)
  else
    match get_root s.folders_v2 folder_id fuel with
    | none => none
    | some (root_folder, root_folder_id) =>
      if root_folder_id = folder_id then
        match verify_accessible s root_folder root_folder_id caller with
        | some e => some (s, some e)
        | none =>
          match validate_folder_type root_folder 2 with
          | some e => some (s, some e)
          | none =>
            some (upsert_share s caller share_with folder_id password
              permission created_at 2, none)
      else some (s, some Err.notRootFolder)

/-- `remove_file_v2` (lib.rs:392): ownership check (skipped with only a log
when the resolved root is empty), then remove the file from the folder's
listing (`position().unwrap()` panics when absent) and delete the record. -/
def remove_file_v2 (fuel : Nat) (s : Contract) (caller folder_id file_id : String) :
    Option (Contract × Option Err) :=
  match get_root s.folders_v2 folder_id fuel with
  | none => none
  | some (root_folder, _) =>
    match (match root_folder with
           | some root => validate_user caller root.parent
           | none => none) with
    | some e => some (s, some e)
    | none =>
      match s.folders_v2 folder_id with
      | some folder =>
        match folder.files.findIdx? (fun f => f == file_id) with
        | none => some (s, some Err.unwrapPanic)
        | some i =>
          some ({ s with
                  folders_v2 :=
                    mapInsert s.folders_v2 folder_id
                      { folder with files := folder.files.eraseIdx i },
                  files := mapRemove s.files file_id }, none)
      | none => some (s, none)

/-- `remove_folder_v2` (lib.rs:421): same ownership check as `remove_file_v2`,
then detach the folder from its parent's children and delete the node. -/
def remove_folder_v2 (fuel : Nat) (s : Contract) (caller folder_id : String) :
    Option (Contract × Option Err) :=
  match get_root s.folders_v2 folder_id fuel with
  | none => none
  | some (root_folder, _) =>
    match (match root_folder with
           | some root => validate_user caller root.parent
           | none => none) with
    | some e => some (s, some e)
    | none =>
      match s.folders_v2 folder_id with
      | some folder =>
        match s.folders_v2 folder.parent with
        | some parent_folder =>
          match parent_folder.children.findIdx? (fun f => f == folder_id) with
          | none => some (s, some Err.unwrapPanic)
          | some i =>
            let s1 := { s with folders_v2 := mapRemove s.folders_v2 folder_id }
            some ({ s1 with
                    folders_v2 :=
                      mapInsert s1.folders_v2 folder.parent
                        { parent_folder with
                          children :=
                            parent_folder.children.eraseIdx i } }, none)
        | none => some (s, none)
      | none => some (s, none)

/-- The empty store (`Contract::default()`: all five tables empty). -/
def emptyContract : Contract :=
  ⟨fun _ => none, fun _ => none, fun _ => none, fun _ => none, fun _ => none⟩

/-- Example store: registered account `alice` whose root has the folder chain
`alice → f1 → f2 → f3`. -/
def exChain : Contract where
  folders_v2 := fun k =>
    if k = "alice" then
      some ⟨"root", [], "alice", ["f1"], none, none, "alice", 0⟩
    else if k = "f1" then
      some ⟨"f1", [], "alice", ["f2"], some 1, none, "alice", 1⟩
    else if k = "f2" then
      some ⟨"f2", [], "f1", ["f3"], none, none, "alice", 2⟩
    else if k = "f3" then
      some ⟨"f3", [], "f2", [], none, none, "alice", 3⟩
    else none
  users := fun k => if k = "alice" then some ⟨"pk", "tok"⟩ else none
  files := fun _ => none
  shared_docs := fun _ => none
  shared_doc_of_user := fun _ => none

/-- Example store: two grants by `alice` on resource `f1`, Write for `bob` and
Read for `carol`. -/
def cex3 : Contract :=
  { emptyContract with
    shared_docs := fun k =>
      if k = "alice_bob_f1" then some ⟨"f1", "pw", 2, 0, 1⟩
      else if k = "alice_carol_f1" then some ⟨"f1", "pw", 1, 0, 1⟩
      else none }

/-- A first-level folder owned by `alice`, used as the resolved root in access
checks. -/
def cex3root : FolderV2 := ⟨"f1", [], "alice", [], some 1, none, "alice", 1⟩

/-- Store reached by `sign_up` as `alice` on the empty store. -/
def c4s0 : Contract := sign_up emptyContract "alice" "pk" "tok" 0

/-- Result of `alice` creating folder `f1` under her root. -/
def c4r1 : Option (Contract × Option Err) :=
  create_folder_v2 10 c4s0 "alice" "f1" "f1" "alice" none none 1

/-- Store after the `f1` creation. -/
def c4s1 : Contract := (c4r1.getD (emptyContract, none)).1

/-- Result of `alice` creating folder `f2` under `f1`. -/
def c4r2 : Option (Contract × Option Err) :=
  create_folder_v2 10 c4s1 "alice" "f2" "f2" "f1" none none 2

/-- Store after the `f2` creation. -/
def c4s2 : Contract := (c4r2.getD (emptyContract, none)).1

/-- Result of `alice` removing folder `f1`, orphaning `f2`. -/
def c4r3 : Option (Contract × Option Err) :=
  remove_folder_v2 10 c4s2 "alice" "f1"

/-- Store after the `f1` removal: `f2` survives with a dangling parent. -/
def c4s3 : Contract := (c4r3.getD (emptyContract, none)).1

/-- Example store: `alice` with folder `f1` holding `file1`, and a Write grant
`alice_bob_f1` for `bob` on the folder root `f1`. -/
def cex5 : Contract where
  folders_v2 := fun k =>
    if k = "alice" then
      some ⟨"root", [], "alice", ["f1"], none, none, "alice", 0⟩
    else if k = "f1" then
      some ⟨"f1", ["file1"], "alice", [], some 1, none, "alice", 1⟩
    else none
  users := fun k => if k = "alice" then some ⟨"pk", "tok"⟩ else none
  files := fun k =>
    if k = "file1" then
      some ⟨"cid1", "file1", none, "txt", 2, "alice", 2, "alice"⟩
    else none
  shared_docs := fun k =>
    if k = "alice_bob_f1" then some ⟨"f1", "pw", 2, 3, 2⟩ else none
  shared_doc_of_user := fun k =>
    if k = "bob" then some ["alice_bob_f1"] else none

/-- Example store: `alice` with a common folder `f1` (type 1) holding `file1`
and a shared folder `g1` (type 2); nothing shared yet. -/
def cex8 : Contract where
  folders_v2 := fun k =>
    if k = "alice" then
      some ⟨"root", [], "alice", ["f1", "g1"], none, none, "alice", 0⟩
    else if k = "f1" then
      some ⟨"f1", ["file1"], "alice", [], some 1, none, "alice", 1⟩
    else if k = "g1" then
      some ⟨"g1", [], "alice", [], some 2, some "gp", "alice", 1⟩
    else none
  users := fun k => if k = "alice" then some ⟨"pk", "tok"⟩ else none
  files := fun k =>
    if k = "file1" then
      some ⟨"cid1", "file1", none, "txt", 2, "alice", 2, "alice"⟩
    else none
  shared_docs := fun _ => none
  shared_doc_of_user := fun _ => none

/-- Example store: `alice`'s root holds `file0` directly (placed in the table;
`get_root` on the root itself yields an empty result). -/
def cex10 : Contract where
  folders_v2 := fun k =>
    if k = "alice" then
      some ⟨"root", ["file0"], "alice", ["f1"], none, none, "alice", 0⟩
    else if k = "f1" then
      some ⟨"f1", [], "alice", [], some 1, none, "alice", 1⟩
    else none
  users := fun k => if k = "alice" then some ⟨"pk", "tok"⟩ else none
  files := fun k =>
    if k = "file0" then
      some ⟨"cid0", "file0", none, "txt", 0, "alice", 0, "alice"⟩
    else none
  shared_docs := fun _ => none
  shared_doc_of_user := fun _ => none

/-! Helper lemmas about the `get_root` traversal and the share upsert. -/

/-- One exiting check of the `get_root` loop: when `current = parent` the loop
stops and yields the accumulated `result`. -/
theorem getRootLoop_exit (folders : String → Option FolderV2) (fuel : Nat)
    (c p res : String) (h : c = p) :
    getRootLoop folders (fuel + 1) c p res = some res := by
  simp [getRootLoop, h]

/-- One productive iteration of the `get_root` loop. -/
theorem getRootLoop_step (folders : String → Option FolderV2) (fuel : Nat)
    (c p res : String) (h : c ≠ p) (fo : FolderV2) (hp : folders p = some fo) :
    getRootLoop folders (fuel + 1) c p res =
      getRootLoop folders fuel p fo.parent
        (if p = fo.parent then c else res) := by
  simp [getRootLoop, h, hp]

/-- When the parent id is dangling and distinct from the current id, the loop
state never changes, so the loop exhausts any amount of fuel: the source's
`while` loop spins forever. -/
theorem getRootLoop_stuck (folders : String → Option FolderV2) (c p res : String)
    (h : c ≠ p) (hp : folders p = none) :
    ∀ fuel, getRootLoop folders fuel c p res = none := by
  intro fuel
  induction fuel with
  | zero => rfl
  | succ n ih => simp [getRootLoop, h, hp, ih]

/-- Unfolding of `get_root` when the starting folder exists. -/
theorem get_root_eq_of_mem (folders : String → Option FolderV2) (a : String)
    (fa : FolderV2) (ha : folders a = some fa) (fuel : Nat) :
    get_root folders a fuel =
      match getRootLoop folders fuel a fa.parent "" with
      | none => none
      | some result => some (folders result, result) := by
  unfold get_root
  rw [ha]

/-- `get_root` diverges from a node whose parent is dangling. -/
theorem get_root_stuck (folders : String → Option FolderV2) (a : String)
    (fa : FolderV2) (ha : folders a = some fa) (hne : a ≠ fa.parent)
    (hp : folders fa.parent = none) (fuel : Nat) :
    get_root folders a fuel = none := by
  rw [get_root_eq_of_mem folders a fa ha fuel,
    getRootLoop_stuck folders a fa.parent "" hne hp fuel]

/-- `upsert_share` never touches the folder table. -/
theorem upsert_share_folders_v2 (s : Contract)
    (caller share_with resource password : String)
    (permission created_at doc_type : Nat) :
    (upsert_share s caller share_with resource password permission created_at
      doc_type).folders_v2 = s.folders_v2 := by
  rcases h : s.shared_doc_of_user share_with with _ | l <;>
    simp [upsert_share, h]

/-- Upserting the same `(owner, grantee, resource)` grant twice: the second
ShareDoc overwrites the first under the single composite key, and the
grantee's index holds that key exactly once (provided it was not already
present). -/
theorem upsert_share_twice (s : Contract) (owner grantee resource pw1 pw2 : String)
    (p1 p2 t1 t2 d1 d2 : Nat)
    (hkey : ∀ l, s.shared_doc_of_user grantee = some l →
      shareKey owner grantee resource ∉ l) :
    ((upsert_share (upsert_share s owner grantee resource pw1 p1 t1 d1)
        owner grantee resource pw2 p2 t2 d2).shared_docs
      (shareKey owner grantee resource) = some ⟨resource, pw2, p2, t2, d2⟩)
    ∧ ∃ l, (upsert_share (upsert_share s owner grantee resource pw1 p1 t1 d1)
        owner grantee resource pw2 p2 t2 d2).shared_doc_of_user grantee = some l
        ∧ l.count (shareKey owner grantee resource) = 1 := by
  rcases h : s.shared_doc_of_user grantee with _ | l
  · refine ⟨by simp [upsert_share, h, mapInsert], ⟨[shareKey owner grantee resource], ?_, ?_⟩⟩
    · simp [upsert_share, h, mapInsert]
    · simp
  · have hk : shareKey owner grantee resource ∉ l := hkey l h
    have hkc : l.contains (shareKey owner grantee resource) = false := by
      simpa using hk
    refine ⟨by simp [upsert_share, h, mapInsert, hkc],
      ⟨l ++ [shareKey owner grantee resource], ?_, ?_⟩⟩
    · simp [upsert_share, h, mapInsert, hk]
    · simp [List.count_append, List.count_eq_zero.mpr hk]

/-- C1 (amended): for every state with a self-loop root `r` and a folder chain
`r → f1 → f2 → f3` of pairwise-distinct links, `get_root "f3"` returns the
first-level folder `f1` — the child of the self-loop root — together with
`f1`'s id, not the self-loop root node and the account id: the loop records
the node one step *below* the self-loop into `result`. -/
theorem C1_get_root_first_level (folders : String → Option FolderV2)
    (r f1 f2 f3 : String) (nr n1 n2 n3 : FolderV2) (fuel : Nat)
    (hr : folders r = some nr) (hrp : nr.parent = r)
    (h1 : folders f1 = some n1) (h1p : n1.parent = r)
    (h2 : folders f2 = some n2) (h2p : n2.parent = f1)
    (h3 : folders f3 = some n3) (h3p : n3.parent = f2)
    (d32 : f3 ≠ f2) (d21 : f2 ≠ f1) (d1r : f1 ≠ r) :
    get_root folders f3 (fuel + 4) = some (some n1, f1) := by
  have l : getRootLoop folders (fuel + 4) f3 f2 "" = some f1 := by
    rw [getRootLoop_step folders (fuel + 3) f3 f2 "" d32 n2 h2, h2p, if_neg d21,
      getRootLoop_step folders (fuel + 2) f2 f1 "" d21 n1 h1, h1p, if_neg d1r,
      getRootLoop_step folders (fuel + 1) f1 r "" d1r nr hr, hrp, if_pos rfl]
    exact getRootLoop_exit folders fuel r r f1 rfl
  rw [get_root_eq_of_mem folders f3 n3 h3, h3p, l]
  show some (folders f1, f1) = some (some n1, f1)
  rw [h1]

/-- C1 counterexample: in `exChain` (registered account `alice` with the chain
`alice → f1 → f2 → f3`), `get_root "f3"` returns the node `f1` and the id
`"f1"`, whose parent is `"alice"`, not itself — so the returned id is not the
account id and does not name a self-loop node, contrary to the claim. -/
theorem C1_counterexample :
    exChain.users "alice" = some ⟨"pk", "tok"⟩
    ∧ (exChain.folders_v2 "alice").map FolderV2.parent = some "alice"
    ∧ (exChain.folders_v2 "f1").map FolderV2.parent = some "alice"
    ∧ (exChain.folders_v2 "f2").map FolderV2.parent = some "f1"
    ∧ (exChain.folders_v2 "f3").map FolderV2.parent = some "f2"
    ∧ get_root exChain.folders_v2 "f3" 10 =
        some (some ⟨"f1", [], "alice", ["f2"], some 1, none, "alice", 1⟩, "f1")
    ∧ ("f1" : String) ≠ "alice" :=
  ⟨rfl, rfl, rfl, rfl, rfl, rfl, by decide⟩

/-- C1 witness: the amended theorem applied to the concrete chain store. -/
theorem C1_witness :
    get_root exChain.folders_v2 "f3" (6 + 4) =
      some (some ⟨"f1", [], "alice", ["f2"], some 1, none, "alice", 1⟩, "f1") :=
  C1_get_root_first_level exChain.folders_v2 "alice" "f1" "f2" "f3"
    ⟨"root", [], "alice", ["f1"], none, none, "alice", 0⟩
    ⟨"f1", [], "alice", ["f2"], some 1, none, "alice", 1⟩
    ⟨"f2", [], "f1", ["f3"], none, none, "alice", 2⟩
    ⟨"f3", [], "f2", [], none, none, "alice", 3⟩ 6
    rfl rfl rfl rfl rfl rfl rfl rfl (by decide) (by decide) (by decide)

/-- C2 (amended): immediately after `sign_up` by account `a`, `get_root a`
returns the empty result `(none, "")`, not the freshly inserted self-loop root
node: the loop body never runs on a self-loop start, so `result` stays `""`
(assuming no folder is stored under the empty-string id). -/
theorem C2_get_root_after_sign_up (s : Contract) (a pk tok : String)
    (t fuel : Nat) (ha : a ≠ "") (he : s.folders_v2 "" = none) :
    get_root (sign_up s a pk tok t).folders_v2 a (fuel + 1) =
      some (none, "") := by
  have hlook : (sign_up s a pk tok t).folders_v2 a =
      some ⟨"root", [], a, [], none, none, a, t⟩ := by
    simp [sign_up, mapInsert]
  rw [get_root_eq_of_mem _ a _ hlook]
  show (match getRootLoop (sign_up s a pk tok t).folders_v2 (fuel + 1) a a ""
          with
        | none => none
        | some result =>
          some ((sign_up s a pk tok t).folders_v2 result, result)) =
      some (none, "")
  rw [getRootLoop_exit _ fuel a a "" rfl]
  show some ((sign_up s a pk tok t).folders_v2 "", "") = some (none, "")
  have : (sign_up s a pk tok t).folders_v2 "" = none := by
    simp [sign_up, mapInsert, Ne.symm ha, he]
  rw [this]

/-- C2 counterexample: after `sign_up` as `alice` on the empty store, `alice`
is registered, the self-loop root node is stored under `"alice"`, yet
`get_root "alice"` returns the empty result `(none, "")` instead of that
node. -/
theorem C2_counterexample :
    (sign_up emptyContract "alice" "pk" "tok" 0).users "alice" =
      some ⟨"pk", "tok"⟩
    ∧ (sign_up emptyContract "alice" "pk" "tok" 0).folders_v2 "alice" =
        some ⟨"root", [], "alice", [], none, none, "alice", 0⟩
    ∧ get_root (sign_up emptyContract "alice" "pk" "tok" 0).folders_v2
        "alice" 5 = some (none, "") :=
  ⟨rfl, rfl, rfl⟩

/-- C2 witness: the amended theorem applied to `alice` on the empty store. -/
theorem C2_witness :
    get_root (sign_up emptyContract "alice" "pk" "tok" 0).folders_v2
      "alice" (4 + 1) = some (none, "") :=
  C2_get_root_after_sign_up emptyContract "alice" "pk" "tok" 0 4
    (by decide) rfl

/-- C3: `verify_accessible root_folder folder_id caller` succeeds (returns no
panic) exactly when the caller equals the root folder's `parent` (owner) field
or a ShareDoc keyed `"{owner}_{caller}_{folder_id}"` exists with permission 2
(Write); it fails with `notShared` when no grant exists, with
`insufficientPermission` when the grant has permission 1 (Read), and with
`noRootPermission` when the root folder is empty. -/
theorem C3_verify_accessible_spec (s : Contract) (root_folder : Option FolderV2)
    (folder_id account_id : String) :
    (verify_accessible s root_folder folder_id account_id = none ↔
      ∃ folder, root_folder = some folder ∧
        (folder.parent = account_id ∨
         ∃ d, s.shared_docs (shareKey folder.parent account_id folder_id) =
            some d ∧ d.permission = 2))
    ∧ (root_folder = none →
        verify_accessible s root_folder folder_id account_id =
          some Err.noRootPermission)
    ∧ (∀ folder, root_folder = some folder → folder.parent ≠ account_id →
        s.shared_docs (shareKey folder.parent account_id folder_id) = none →
        verify_accessible s root_folder folder_id account_id =
          some Err.notShared)
    ∧ (∀ folder d, root_folder = some folder → folder.parent ≠ account_id →
        s.shared_docs (shareKey folder.parent account_id folder_id) = some d →
        d.permission = 1 →
        verify_accessible s root_folder folder_id account_id =
          some Err.insufficientPermission) := by
  refine ⟨?_, ?_, ?_, ?_⟩
  · cases root_folder with
    | none => simp [verify_accessible]
    | some folder =>
      by_cases h : folder.parent = account_id
      · simp [verify_accessible, h]
      · cases hd : s.shared_docs (shareKey folder.parent account_id folder_id)
          with
        | none => simp [verify_accessible, h, hd]
        | some d =>
          by_cases hp : d.permission = 2 <;>
            simp [verify_accessible, h, hd, hp]
  · rintro rfl
    rfl
  · rintro folder rfl h hd
    simp [verify_accessible, h, hd]
  · rintro folder d rfl h hd hp
    simp [verify_accessible, h, hd, hp]

/-- C3 witness: the five outcomes at the concrete store `cex3`: owner passes,
Write grantee passes, Read grantee and non-grantee fail, empty root fails. -/
theorem C3_witness :
    verify_accessible cex3 (some cex3root) "f1" "alice" = none
    ∧ verify_accessible cex3 (some cex3root) "f1" "bob" = none
    ∧ verify_accessible cex3 (some cex3root) "f1" "carol" =
        some Err.insufficientPermission
    ∧ verify_accessible cex3 (some cex3root) "f1" "dave" = some Err.notShared
    ∧ verify_accessible cex3 none "f1" "alice" = some Err.noRootPermission := by
  refine ⟨?_, ?_, ?_, ?_, ?_⟩
  · exact (C3_verify_accessible_spec cex3 (some cex3root) "f1" "alice").1.mpr
      ⟨cex3root, rfl, Or.inl rfl⟩
  · exact (C3_verify_accessible_spec cex3 (some cex3root) "f1" "bob").1.mpr
      ⟨cex3root, rfl, Or.inr ⟨⟨"f1", "pw", 2, 0, 1⟩, rfl, rfl⟩⟩
  · exact (C3_verify_accessible_spec cex3 (some cex3root) "f1" "carol").2.2.2
      cex3root ⟨"f1", "pw", 1, 0, 1⟩ rfl (by decide) rfl rfl
  · exact (C3_verify_accessible_spec cex3 (some cex3root) "f1" "dave").2.2.1
      cex3root rfl (by decide) rfl
  · exact (C3_verify_accessible_spec cex3 none "f1" "alice").2.1 rfl

/-- C4: the claim is false of the code — `get_root` does *not* terminate on
every reachable state.  From the empty store, `alice` signs up, creates `f1`
under her root and `f2` under `f1`, then removes `f1`; the orphan `f2` keeps
`parent = "f1"`, which no longer exists, and from it the `while` loop of
`get_root` never exits (the missing-parent branch leaves the loop variables
unchanged), exhausting every fuel bound. -/
theorem C4_get_root_diverges_on_orphan :
    c4r1 = some (c4s1, none)
    ∧ c4r2 = some (c4s2, none)
    ∧ c4r3 = some (c4s3, none)
    ∧ c4s3.folders_v2 "f1" = none
    ∧ (c4s3.folders_v2 "f2").map FolderV2.parent = some "f1"
    ∧ ∀ fuel, get_root c4s3.folders_v2 "f2" fuel = none := by
  refine ⟨rfl, rfl, rfl, rfl, rfl, fun fuel => ?_⟩
  exact get_root_stuck c4s3.folders_v2 "f2"
    ⟨"f2", [], "f1", [], none, none, "alice", 2⟩ rfl (by decide) rfl fuel

/-- C5: `remove_file_v2` demands strict ownership.  In any state where the
folder resolves to a root owned by `owner` and a non-owner `grantee` holds a
Write (permission 2) ShareDoc on that root, the grantee's call still aborts
with the owner-mismatch panic and leaves the store untouched, while the
owner's identical call removes the file. -/
theorem C5_remove_file_requires_owner (fuel : Nat) (s : Contract)
    (owner grantee folder_id file_id rid : String) (root fo : FolderV2)
    (d : ShareDoc) (i : Nat)
    (hroot : get_root s.folders_v2 folder_id fuel = some (some root, rid))
    (howner : root.parent = owner)
    (hgr : grantee ≠ owner)
    (_hshare : s.shared_docs (shareKey owner grantee rid) = some d)
    (_hperm : d.permission = 2)
    (hfo : s.folders_v2 folder_id = some fo)
    (hidx : fo.files.findIdx? (fun f => f == file_id) = some i) :
    remove_file_v2 fuel s grantee folder_id file_id =
      some (s, some Err.notOwner)
    ∧ remove_file_v2 fuel s owner folder_id file_id =
        some ({ s with
                folders_v2 :=
                  mapInsert s.folders_v2 folder_id
                    { fo with files := fo.files.eraseIdx i },
                files := mapRemove s.files file_id }, none) := by
  constructor
  · simp [remove_file_v2, hroot, howner, validate_user, hgr]
  · simp [remove_file_v2, hroot, howner, validate_user, hfo, hidx]

/-- C5 witness: in `cex5`, `bob` holds the Write grant `alice_bob_f1` on root
`f1`, yet his removal of `file1` panics with the owner mismatch; `alice`'s
identical call deletes the file. -/
theorem C5_witness :
    remove_file_v2 10 cex5 "bob" "f1" "file1" = some (cex5, some Err.notOwner)
    ∧ remove_file_v2 10 cex5 "alice" "f1" "file1" =
        some ({ cex5 with
                folders_v2 :=
                  mapInsert cex5.folders_v2 "f1"
                    ⟨"f1", [], "alice", [], some 1, none, "alice", 1⟩,
                files := mapRemove cex5.files "file1" }, none) :=
  C5_remove_file_requires_owner 10 cex5 "alice" "bob" "f1" "file1" "f1"
    ⟨"f1", ["file1"], "alice", [], some 1, none, "alice", 1⟩
    ⟨"f1", ["file1"], "alice", [], some 1, none, "alice", 1⟩
    ⟨"f1", "pw", 2, 3, 2⟩ 0 rfl rfl (by decide) rfl rfl rfl rfl

/-- C6: every mutating entry point that can fail is atomic — whenever a call
halts with a validation or access-control panic, the store it leaves behind is
exactly the store it started from (all five tables unchanged).  `sign_up` has
no failing path at all (its embedding is a total function into `Contract`), so
the claim is vacuous for it. -/
theorem C6_failed_calls_leave_state_unchanged (fuel : Nat) (s : Contract)
    (caller id name parent folder file_id cid fname share_with pfolder spw :
      String)
    (pw epw : Option String) (ty : Option Nat) (ftypeS : String)
    (perm t : Nat) :
    (∀ s' e, create_folder_v2 fuel s caller id name parent pw ty t =
        some (s', some e) → s' = s)
    ∧ (∀ s' e, create_file_v2 fuel s caller folder file_id cid fname epw
        ftypeS t = some (s', some e) → s' = s)
    ∧ (∀ s' e, share_file_v2 fuel s caller file_id share_with pfolder spw
        perm t = some (s', some e) → s' = s)
    ∧ (∀ s' e, share_folder_v2 fuel s caller folder share_with spw perm t =
        some (s', some e) → s' = s)
    ∧ (∀ s' e, remove_file_v2 fuel s caller folder file_id =
        some (s', some e) → s' = s)
    ∧ (∀ s' e, remove_folder_v2 fuel s caller folder =
        some (s', some e) → s' = s) := by
  refine ⟨?_, ?_, ?_, ?_, ?_, ?_⟩
  · intro s' e h
    unfold create_folder_v2 at h
    repeat' split at h
    all_goals simp_all
  · intro s' e h
    unfold create_file_v2 at h
    repeat' split at h
    all_goals simp_all
  · intro s' e h
    unfold share_file_v2 at h
    repeat' split at h
    all_goals simp_all
  · intro s' e h
    unfold share_folder_v2 at h
    repeat' split at h
    all_goals simp_all
  · intro s' e h
    unfold remove_file_v2 at h
    repeat' split at h
    all_goals simp_all
  · intro s' e h
    unfold remove_folder_v2 at h
    repeat' split at h
    all_goals simp_all

/-- C6 witness: a failing `create_folder_v2` (duplicate id `f1` in `cex5`)
halts with the collision panic and, by the atomicity theorem, leaves the
store equal to `cex5`. -/
theorem C6_witness :
    create_folder_v2 10 cex5 "alice" "f1" "n" "alice" none none 9 =
      some (cex5, some Err.folderExists) ∧ cex5 = cex5 := by
  refine ⟨rfl, ?_⟩
  exact (C6_failed_calls_leave_state_unchanged 10 cex5 "alice" "f1" "n"
    "alice" "f1" "file1" "c" "n" "bob" "f1" "p" none none none "t" 1 9).1
    cex5 Err.folderExists rfl

/-- C7 (amended): `create_folder_v2` rejects a new id colliding with an
existing account id (panic `folder_id can't eq user_id`) or an existing
folder id (panic `Folder id already exists`), in both cases leaving the store
unchanged; ids colliding with an existing *file* id are not checked and are
accepted. -/
theorem C7_create_folder_rejects_user_and_folder_ids (fuel : Nat)
    (s : Contract) (caller id name parent : String) (pw : Option String)
    (ty : Option Nat) (t : Nat) :
    (∀ u, s.users id = some u →
      create_folder_v2 fuel s caller id name parent pw ty t =
        some (s, some Err.folderIdIsUser))
    ∧ (∀ fo, s.users id = none → s.folders_v2 id = some fo →
      create_folder_v2 fuel s caller id name parent pw ty t =
        some (s, some Err.folderExists)) := by
  constructor
  · intro u hu
    simp [create_folder_v2, validate_folder, hu]
  · intro fo hu hfo
    simp [create_folder_v2, validate_folder, hu, hfo]

/-- C7 counterexample: in `cex5`, `"file1"` is an existing file id and no
user or folder id; `create_folder_v2` with the new id `"file1"` completes
without any panic and inserts a folder under that id, contrary to the claimed
`AlreadyExists` rejection for the combined namespace. -/
theorem C7_counterexample :
    cex5.files "file1" =
      some ⟨"cid1", "file1", none, "txt", 2, "alice", 2, "alice"⟩
    ∧ cex5.users "file1" = none
    ∧ cex5.folders_v2 "file1" = none
    ∧ (create_folder_v2 10 cex5 "alice" "file1" "n" "alice" none none 9).map
        (fun p => (p.2, p.1.folders_v2 "file1")) =
      some (none, some ⟨"n", [], "alice", [], none, none, "alice", 9⟩) :=
  ⟨rfl, rfl, rfl, rfl⟩

/-- C7 witness: both rejected collisions at the concrete store `cex5`: the
account id `alice` and the folder id `f1`. -/
theorem C7_witness :
    create_folder_v2 10 cex5 "alice" "alice" "n" "alice" none none 9 =
      some (cex5, some Err.folderIdIsUser)
    ∧ create_folder_v2 10 cex5 "alice" "f1" "n" "alice" none none 9 =
      some (cex5, some Err.folderExists) :=
  ⟨(C7_create_folder_rejects_user_and_folder_ids 10 cex5 "alice" "alice" "n"
      "alice" none none 9).1 ⟨"pk", "tok"⟩ rfl,
   (C7_create_folder_rejects_user_and_folder_ids 10 cex5 "alice" "f1" "n"
      "alice" none none 9).2
     ⟨"f1", ["file1"], "alice", [], some 1, none, "alice", 1⟩ rfl rfl⟩

/-- C8: sharing the same `(owner, grantee, resource)` triple twice with
different permissions — via `share_file_v2` on a file, or `share_folder_v2`
on a shared-root folder — leaves exactly one ShareDoc under the composite key
carrying the second call's permission, and the grantee's index holds that key
exactly once. -/
theorem C8_share_twice_single_doc (fuel : Nat) (s : Contract)
    (owner grantee file_id pfolder gfolder pw1 pw2 : String)
    (p1 p2 t1 t2 : Nat) (rf gf fo : FolderV2) (rid : String)
    (hne : owner ≠ grantee)
    (hrootf : get_root s.folders_v2 pfolder fuel = some (some rf, rid))
    (hrfown : rf.parent = owner)
    (hrft : rf.folder_type = some 1)
    (hfo : s.folders_v2 pfolder = some fo)
    (hfile : fo.files.contains file_id = true)
    (hkeyf : ∀ l, s.shared_doc_of_user grantee = some l →
      shareKey owner grantee file_id ∉ l)
    (hrootg : get_root s.folders_v2 gfolder fuel = some (some gf, gfolder))
    (hgfown : gf.parent = owner)
    (hgft : gf.folder_type = some 2)
    (hkeyg : ∀ l, s.shared_doc_of_user grantee = some l →
      shareKey owner grantee gfolder ∉ l) :
    (∃ s1 s2,
      share_file_v2 fuel s owner file_id grantee pfolder pw1 p1 t1 =
        some (s1, none)
      ∧ share_file_v2 fuel s1 owner file_id grantee pfolder pw2 p2 t2 =
          some (s2, none)
      ∧ s2.shared_docs (shareKey owner grantee file_id) =
          some ⟨file_id, pw2, p2, t2, 1⟩
      ∧ ∃ l, s2.shared_doc_of_user grantee = some l
          ∧ l.count (shareKey owner grantee file_id) = 1)
    ∧ (∃ s1 s2,
      share_folder_v2 fuel s owner gfolder grantee pw1 p1 t1 = some (s1, none)
      ∧ share_folder_v2 fuel s1 owner gfolder grantee pw2 p2 t2 =
          some (s2, none)
      ∧ s2.shared_docs (shareKey owner grantee gfolder) =
          some ⟨gfolder, pw2, p2, t2, 2⟩
      ∧ ∃ l, s2.shared_doc_of_user grantee = some l
          ∧ l.count (shareKey owner grantee gfolder) = 1) := by
  constructor
  · have hmem : file_id ∈ fo.files := by simpa using hfile
    refine ⟨upsert_share s owner grantee file_id pw1 p1 t1 1,
      upsert_share (upsert_share s owner grantee file_id pw1 p1 t1 1)
        owner grantee file_id pw2 p2 t2 1, ?_, ?_, ?_, ?_⟩
    · simp [share_file_v2, hne, hrootf, verify_accessible, hrfown,
        validate_folder_type, hrft, hfo, hmem]
    · simp [share_file_v2, hne, upsert_share_folders_v2, hrootf,
        verify_accessible, hrfown, validate_folder_type, hrft, hfo, hmem]
    · exact (upsert_share_twice s owner grantee file_id pw1 pw2 p1 p2 t1 t2
        1 1 hkeyf).1
    · exact (upsert_share_twice s owner grantee file_id pw1 pw2 p1 p2 t1 t2
        1 1 hkeyf).2
  · refine ⟨upsert_share s owner grantee gfolder pw1 p1 t1 2,
      upsert_share (upsert_share s owner grantee gfolder pw1 p1 t1 2)
        owner grantee gfolder pw2 p2 t2 2, ?_, ?_, ?_, ?_⟩
    · simp [share_folder_v2, hne, hrootg, verify_accessible, hgfown,
        validate_folder_type, hgft]
    · simp [share_folder_v2, hne, upsert_share_folders_v2, hrootg,
        verify_accessible, hgfown, validate_folder_type, hgft]
    · exact (upsert_share_twice s owner grantee gfolder pw1 pw2 p1 p2 t1 t2
        2 2 hkeyg).1
    · exact (upsert_share_twice s owner grantee gfolder pw1 pw2 p1 p2 t1 t2
        2 2 hkeyg).2

/-- C8 witness: the double share at the concrete store `cex8`, both for the
file `file1` inside the common folder `f1` and for the shared folder `g1`. -/
theorem C8_witness :
    (∃ s1 s2,
      share_file_v2 10 cex8 "alice" "file1" "bob" "f1" "pw1" 1 3 =
        some (s1, none)
      ∧ share_file_v2 10 s1 "alice" "file1" "bob" "f1" "pw2" 2 4 =
          some (s2, none)
      ∧ s2.shared_docs (shareKey "alice" "bob" "file1") =
          some ⟨"file1", "pw2", 2, 4, 1⟩
      ∧ ∃ l, s2.shared_doc_of_user "bob" = some l
          ∧ l.count (shareKey "alice" "bob" "file1") = 1)
    ∧ (∃ s1 s2,
      share_folder_v2 10 cex8 "alice" "g1" "bob" "pw1" 1 3 = some (s1, none)
      ∧ share_folder_v2 10 s1 "alice" "g1" "bob" "pw2" 2 4 = some (s2, none)
      ∧ s2.shared_docs (shareKey "alice" "bob" "g1") =
          some ⟨"g1", "pw2", 2, 4, 2⟩
      ∧ ∃ l, s2.shared_doc_of_user "bob" = some l
          ∧ l.count (shareKey "alice" "bob" "g1") = 1) :=
  C8_share_twice_single_doc 10 cex8 "alice" "bob" "file1" "f1" "g1"
    "pw1" "pw2" 1 2 3 4
    ⟨"f1", ["file1"], "alice", [], some 1, none, "alice", 1⟩
    ⟨"g1", [], "alice", [], some 2, some "gp", "alice", 1⟩
    ⟨"f1", ["file1"], "alice", [], some 1, none, "alice", 1⟩ "f1"
    (by decide) rfl rfl rfl rfl rfl (fun l h => Option.noConfusion h)
    rfl rfl rfl (fun l h => Option.noConfusion h)

/-- C9: calling `sign_up` again for an already registered account overwrites
that account's root folder with a fresh node whose `children` and `files`
lists are empty, while every other folder and the whole file table are left
in place — so previously created content is detached from the root but stays
in the tables. -/
theorem C9_sign_up_resets_root (s : Contract) (a pk tok : String) (t : Nat) :
    (sign_up s a pk tok t).folders_v2 a =
      some ⟨"root", [], a, [], none, none, a, t⟩
    ∧ (∀ k, k ≠ a → (sign_up s a pk tok t).folders_v2 k = s.folders_v2 k)
    ∧ (∀ k, (sign_up s a pk tok t).files k = s.files k) := by
  refine ⟨by simp [sign_up, mapInsert], fun k hk => ?_, fun k => rfl⟩
  simp [sign_up, mapInsert, hk]

/-- C9 witness: re-registering `alice` over `cex5` resets her root (children
were `["f1"]`, now `[]`) while the folder `f1` and its record survive. -/
theorem C9_witness :
    (sign_up cex5 "alice" "pk2" "tok2" 9).folders_v2 "alice" =
      some ⟨"root", [], "alice", [], none, none, "alice", 9⟩
    ∧ (sign_up cex5 "alice" "pk2" "tok2" 9).folders_v2 "f1" =
        cex5.folders_v2 "f1" := by
  have h := C9_sign_up_resets_root cex5 "alice" "pk2" "tok2" 9
  exact ⟨h.1, h.2.1 "f1" (by decide)⟩

/-- C10: whenever `get_root` resolves the target to an empty root (as happens
when the target is an account's own root node), both removal entry points
skip the ownership check entirely: their outcome is independent of the caller
identity, and when the structural preconditions hold the removal is performed
for every caller. -/
theorem C10_remove_skips_ownership_on_empty_root (fuel : Nat) (s : Contract)
    (folder_id file_id rid : String)
    (hroot : get_root s.folders_v2 folder_id fuel = some (none, rid)) :
    (∀ c1 c2, remove_file_v2 fuel s c1 folder_id file_id =
        remove_file_v2 fuel s c2 folder_id file_id)
    ∧ (∀ caller fo i, s.folders_v2 folder_id = some fo →
        fo.files.findIdx? (fun f => f == file_id) = some i →
        remove_file_v2 fuel s caller folder_id file_id =
          some ({ s with
                  folders_v2 :=
                    mapInsert s.folders_v2 folder_id
                      { fo with files := fo.files.eraseIdx i },
                  files := mapRemove s.files file_id }, none))
    ∧ (∀ c1 c2, remove_folder_v2 fuel s c1 folder_id =
        remove_folder_v2 fuel s c2 folder_id)
    ∧ (∀ caller fo pf i, s.folders_v2 folder_id = some fo →
        s.folders_v2 fo.parent = some pf →
        pf.children.findIdx? (fun f => f == folder_id) = some i →
        remove_folder_v2 fuel s caller folder_id =
          some ({ s with
                  folders_v2 :=
                    mapInsert (mapRemove s.folders_v2 folder_id) fo.parent
                      { pf with children := pf.children.eraseIdx i } },
            none)) := by
  refine ⟨fun c1 c2 => ?_, fun caller fo i hfo hidx => ?_,
    fun c1 c2 => ?_, fun caller fo pf i hfo hpf hidx => ?_⟩
  · simp [remove_file_v2, hroot]
  · simp [remove_file_v2, hroot, hfo, hidx]
  · simp [remove_folder_v2, hroot]
  · simp [remove_folder_v2, hroot, hfo, hpf, hidx]

/-- C10 witness: at `cex10`, `get_root "alice"` is empty, and the unrelated
caller `mallory` removes `file0` from `alice`'s root exactly as `alice`
herself would. -/
theorem C10_witness :
    remove_file_v2 10 cex10 "mallory" "alice" "file0" =
      some ({ cex10 with
              folders_v2 :=
                mapInsert cex10.folders_v2 "alice"
                  ⟨"root", [], "alice", ["f1"], none, none, "alice", 0⟩,
              files := mapRemove cex10.files "file0" }, none)
    ∧ remove_file_v2 10 cex10 "mallory" "alice" "file0" =
        remove_file_v2 10 cex10 "alice" "alice" "file0" := by
  have h := C10_remove_skips_ownership_on_empty_root 10 cex10 "alice"
    "file0" "" rfl
  exact ⟨h.2.1 "mallory"
    ⟨"root", ["file0"], "alice", ["f1"], none, none, "alice", 0⟩ 0 rfl rfl,
    h.1 "mallory" "alice"⟩
